import Mathlib

/-!
Verification development for the abliteration-lab task-orchestration core.

The definitions below are a shallow embedding of the Python sources under
`src/infrastructure/`:

* `agent_orchestrator.py` — `AgentOrchestrator` with its persisted task store
  (a JSON dict keyed by task id, modelled as an association list with dict
  assignment semantics), its append-only event log, and the operations
  `create_task`, `claim_task`, `heartbeat`, `complete_task`, `fail_task`,
  `recover_stale_tasks`, `get_task`, plus the internal `_recover_stale_lock`.
  Wall-clock timestamps (ISO strings in the source) are modelled as natural
  numbers: each operation receives its `now` explicitly, and the staleness
  comparison `utc_now() - heartbeat_dt <= stale_after` becomes
  `now - hb <= staleAfter` (a non-positive difference is below any
  non-negative threshold in both settings).  Python truthiness on
  `lock_owner` (`if not owner`) is modelled explicitly: `none` and
  `some ""` are both falsy.  Task/event ids drawn from `uuid` are modelled
  by a fresh counter threaded through the state.
* `model_registry.py` — `MultiModelRegistry`.  Python object aliasing is
  made explicit with a small heap: `_records` maps model ids to heap
  references; `get_model`/`list_models` return references (the live
  `ModelRecord` objects) while `export_records` copies field values out
  (`asdict`).
* `abliteration_workflow.py` — `BatchAbliterationOrchestrator.run_batch`.
  The worker pool is modelled by abstracting each submitted unit's workflow
  execution as an `outcome` function (normal result or raised exception)
  and the `as_completed` iteration order as an explicit `completionOrder`
  list; theorems quantify over every completion order that is a
  permutation of the submitted units.
* `message_bus.py` — `MessageBus` pattern matching, publish and the
  unsubscribe closure (Python `list.remove`, first occurrence).  Handlers
  are modelled as opaque identifiers; `publish` returns the sequence of
  handler identifiers invoked, in order.
* `orchestrator_adapter.py` — `OrchestratorAdapter` session records and the
  heartbeat/release request handlers; emitted router messages are recorded
  in an ordered list.
-/

/-! ## Association-list helpers (Python dict semantics) -/

/-- `dict[key]` lookup: first (and in a well-formed dict only) binding wins. -/
def lookupTask : List (String × α) → String → Option α
  | [], _ => none
  | (k, v) :: rest, key => if k = key then some v else lookupTask rest key

/-- `dict[key] = v` assignment: replace an existing binding in place
(preserving insertion order), otherwise append a new binding. -/
def setTask : List (String × α) → String → α → List (String × α)
  | [], key, v => [(key, v)]
  | (k, w) :: rest, key, v =>
    if k = key then (k, v) :: rest else (k, w) :: setTask rest key v

/-- `dict.pop(key, None)`: drop the binding for `key`. -/
def dropKey (l : List (String × α)) (key : String) : List (String × α) :=
  l.filter (fun p => p.1 ≠ key)

/-! ## Task store and event log (`agent_orchestrator.py`) -/

/-- `OrchestratedTask` dataclass.  Timestamps are `Nat`; the opaque JSON
payload dict is an association list of strings. -/
structure OrchTask where
  task_id : String
  title : String
  payload : List (String × String)
  created_at : Nat
  created_by : String
  status : String
  lock_owner : Option String
  lock_acquired_at : Option Nat
  heartbeat_at : Option Nat
  completed_at : Option Nat
  failure_reason : Option String
deriving DecidableEq, Repr

/-- One line of `events.jsonl` (`_log_event`); the `uuid` event id is left
out of the model, the remaining fields are kept. -/
structure Event where
  timestamp : Nat
  type : String
  task_id : String
  actor : String
  metadata : List (String × String)
deriving DecidableEq, Repr

/-- The orchestrator's persisted state: the tasks file, the append-only
events file and the fresh-id counter standing in for `uuid`. -/
structure OrchState where
  tasks : List (String × OrchTask)
  events : List Event
  nextId : Nat
deriving DecidableEq, Repr

def initState : OrchState := ⟨[], [], 0⟩

def mkEvent (now : Nat) (type task_id actor : String)
    (metadata : List (String × String)) : Event :=
  ⟨now, type, task_id, actor, metadata⟩

/-- `_recover_stale_lock`: if the task has a truthy `lock_owner` and a
`heartbeat_at`, and the heartbeat age exceeds `stale_after`, reset the task
to `pending` with all lock fields cleared.  Returns the (possibly reset)
task and, when recovery fired, the previous owner (used for the
`lock_recovered` event the source logs at that point). -/
def recoverStaleLock (staleAfter now : Nat) (t : OrchTask) : OrchTask × Option String :=
  match t.lock_owner, t.heartbeat_at with
  | some owner, some hb =>
    if owner = "" then (t, none)
    else if now - hb ≤ staleAfter then (t, none)
    else
      ({ t with
          status := ("pending"), lock_owner := none
          lock_acquired_at := none, heartbeat_at := none }, some owner)
  | _, _ => (t, none)

/-- Run `_recover_stale_lock` on an in-memory task, appending the
`lock_recovered` event to the log when it fires.  The tasks file is *not*
touched here: the source only persists the reset if the caller later runs
`_save_tasks`. -/
def applyRecovery (staleAfter now : Nat) (s : OrchState) (tid : String)
    (t : OrchTask) : OrchTask × OrchState :=
  match recoverStaleLock staleAfter now t with
  | (t', some po) =>
    (t', { s with events :=
      s.events ++ [mkEvent now ("lock_recovered") tid ("orchestrator")
        [(("previous_owner"), po)]] })
  | (t', none) => (t', s)

/-- `if owner and owner != agent_id` — a truthy owner different from the
caller blocks the claim. -/
def blockingOwner (owner : Option String) (aid : String) : Bool :=
  match owner with
  | none => false
  | some o => if o = "" then false else decide (o ≠ aid)

/-- `create_task`: always succeeds; fresh id from the counter, status
`pending`, `task_created` event. -/
def create_task (now : Nat) (s : OrchState) (title : String)
    (payload : List (String × String)) (created_by : String) :
    OrchTask × OrchState :=
  let tid := ("task_") ++ toString s.nextId
  let t : OrchTask := ⟨tid, title, payload, now, created_by, ("pending"),
    none, none, none, none, none⟩
  (t, ⟨setTask s.tasks tid t,
       s.events ++ [mkEvent now ("task_created") tid created_by
         [(("title"), title)]],
       s.nextId + 1⟩)

/-- `claim_task`: unknown id raises `KeyError`; otherwise stale recovery
runs first, terminal tasks and tasks held by a different truthy owner are
denied (without saving), and otherwise owner and both timestamps are set
and a `task_claimed` event is appended. -/
def claim_task (staleAfter now : Nat) (s : OrchState) (tid aid : String) :
    Except String (Bool × OrchState) :=
  match lookupTask s.tasks tid with
  | none => .error (("Unknown task_id: ") ++ tid)
  | some t0 =>
    let r := applyRecovery staleAfter now s tid t0
    if r.1.status = ("completed") ∨ r.1.status = ("failed") then
      .ok (false, r.2)
    else if blockingOwner r.1.lock_owner aid then
      .ok (false, r.2)
    else
      let t' := { r.1 with
                    status := ("in_progress"), lock_owner := some aid
                    lock_acquired_at := some now, heartbeat_at := some now }
      .ok (true, { r.2 with
                    tasks := setTask r.2.tasks tid t'
                    events := r.2.events ++ [mkEvent now ("task_claimed") tid aid []] })

/-- `heartbeat`: after stale recovery, denied unless the caller equals the
current `lock_owner` (direct `!=`, no truthiness); on success only
`heartbeat_at` is refreshed and saved. -/
def heartbeat (staleAfter now : Nat) (s : OrchState) (tid aid : String) :
    Except String (Bool × OrchState) :=
  match lookupTask s.tasks tid with
  | none => .error (("Unknown task_id: ") ++ tid)
  | some t0 =>
    let r := applyRecovery staleAfter now s tid t0
    if r.1.lock_owner ≠ some aid then .ok (false, r.2)
    else
      let t' := { r.1 with heartbeat_at := some now }
      .ok (true, { r.2 with
                    tasks := setTask r.2.tasks tid t'
                    events := r.2.events ++ [mkEvent now ("heartbeat") tid aid []] })

/-- `complete_task`: denied unless the caller is the current owner; on
success the task becomes terminal `completed` with lock fields cleared. -/
def complete_task (staleAfter now : Nat) (s : OrchState) (tid aid : String) :
    Except String (Bool × OrchState) :=
  match lookupTask s.tasks tid with
  | none => .error (("Unknown task_id: ") ++ tid)
  | some t0 =>
    let r := applyRecovery staleAfter now s tid t0
    if r.1.lock_owner ≠ some aid then .ok (false, r.2)
    else
      let t' := { r.1 with
                    status := ("completed"), completed_at := some now
                    lock_owner := none, lock_acquired_at := none
                    heartbeat_at := none }
      .ok (true, { r.2 with
                    tasks := setTask r.2.tasks tid t'
                    events := r.2.events ++ [mkEvent now ("task_completed") tid aid []] })

/-- `fail_task`: denied unless the caller is the current owner; on success
the task becomes terminal `failed`, the reason is recorded and lock fields
are cleared. -/
def fail_task (staleAfter now : Nat) (s : OrchState) (tid aid reason : String) :
    Except String (Bool × OrchState) :=
  match lookupTask s.tasks tid with
  | none => .error (("Unknown task_id: ") ++ tid)
  | some t0 =>
    let r := applyRecovery staleAfter now s tid t0
    if r.1.lock_owner ≠ some aid then .ok (false, r.2)
    else
      let t' := { r.1 with
                    status := ("failed"), failure_reason := some reason
                    lock_owner := none, lock_acquired_at := none
                    heartbeat_at := none }
      .ok (true, { r.2 with
                    tasks := setTask r.2.tasks tid t'
                    events := r.2.events ++ [mkEvent now ("task_failed") tid aid
                      [(("reason"), reason)]] })

/-- Body of `recover_stale_tasks`: walk the store in insertion order,
recovering every stale lock and logging one `lock_recovered` event per
recovery; all changes are persisted by the final save. -/
def recoverAll (staleAfter now : Nat) :
    List (String × OrchTask) → List (String × OrchTask) × List Event × List String
  | [] => ([], [], [])
  | (k, t) :: rest =>
    let r := recoverStaleLock staleAfter now t
    let tail := recoverAll staleAfter now rest
    match r.2 with
    | some po =>
      ((k, r.1) :: tail.1,
       mkEvent now ("lock_recovered") k ("orchestrator")
         [(("previous_owner"), po)] :: tail.2.1,
       k :: tail.2.2)
    | none => ((k, t) :: tail.1, tail.2.1, tail.2.2)

/-- `recover_stale_tasks`: returns the recovered ids and the new state. -/
def recover_stale_tasks (staleAfter now : Nat) (s : OrchState) :
    List String × OrchState :=
  let r := recoverAll staleAfter now s.tasks
  (r.2.2, { s with tasks := r.1, events := s.events ++ r.2.1 })

/-- `get_task`: unknown id raises `KeyError`; otherwise return a copy of
the record. -/
def get_task (s : OrchState) (tid : String) : Except String OrchTask :=
  match lookupTask s.tasks tid with
  | none => .error (("Unknown task_id: ") ++ tid)
  | some t => .ok t

/-! ## Operation sequences over the persisted store -/

/-- One orchestrator API call, tagged with the wall-clock instant at which
it runs. -/
inductive Op where
  | create (now : Nat) (title : String) (payload : List (String × String))
      (created_by : String)
  | claim (now : Nat) (tid aid : String)
  | beat (now : Nat) (tid aid : String)
  | complete (now : Nat) (tid aid : String)
  | fail (now : Nat) (tid aid : String) (reason : String)
  | recover (now : Nat)
deriving DecidableEq, Repr

/-- Apply one call to the persisted state.  A `KeyError` (unknown task id)
is raised before any mutation in the source, so the persisted store is
unchanged in that case. -/
def runOp (staleAfter : Nat) (s : OrchState) : Op → OrchState
  | .create now title payload cb => (create_task now s title payload cb).2
  | .claim now tid aid =>
    match claim_task staleAfter now s tid aid with
    | .ok r => r.2
    | .error _ => s
  | .beat now tid aid =>
    match heartbeat staleAfter now s tid aid with
    | .ok r => r.2
    | .error _ => s
  | .complete now tid aid =>
    match complete_task staleAfter now s tid aid with
    | .ok r => r.2
    | .error _ => s
  | .fail now tid aid reason =>
    match fail_task staleAfter now s tid aid reason with
    | .ok r => r.2
    | .error _ => s
  | .recover now => (recover_stale_tasks staleAfter now s).2

/-- Run a sequence of calls starting from the empty store. -/
def runOps (staleAfter : Nat) (ops : List Op) : OrchState :=
  ops.foldl (runOp staleAfter) initState

/-! ## Model registry (`model_registry.py`) -/

/-- `ModelRecord` dataclass (field values; the metadata dict is an
association list). -/
structure ModelRecord where
  model_id : String
  source : String
  model_type : String
  capabilities : List String
  abliteration_status : String
  endpoint : Option String
  metadata : List (String × String)
deriving DecidableEq, Repr

/-- `MultiModelRegistry`.  Python stores `ModelRecord` *objects* in
`_records`; to make aliasing observable the records live in a heap of
numbered cells and `_records` maps a model id to its cell.  Connectors are
opaque identifiers. -/
structure MultiModelRegistry where
  max_models : Nat
  heap : List (Nat × ModelRecord)
  records : List (String × Nat)
  connectors : List (String × Nat)
  nextRef : Nat
deriving DecidableEq, Repr

def emptyRegistry (max_models : Nat := 32) : MultiModelRegistry :=
  ⟨max_models, [], [], [], 0⟩

/-- Heap cell lookup (dereferencing a `ModelRecord` object reference). -/
def derefRecord : List (Nat × ModelRecord) → Nat → Option ModelRecord
  | [], _ => none
  | (k, v) :: rest, ρ => if k = ρ then some v else derefRecord rest ρ

/-- Heap cell update (in-place mutation of the referenced object). -/
def updateRecord : List (Nat × ModelRecord) → Nat →
    (ModelRecord → ModelRecord) → List (Nat × ModelRecord)
  | [], _, _ => []
  | (k, v) :: rest, ρ, f =>
    if k = ρ then (k, f v) :: updateRecord rest ρ f
    else (k, v) :: updateRecord rest ρ f

/-- `register_model`: fails if the id exists or capacity is reached;
otherwise allocates a fresh record object, stores its reference, and
attaches the connector when one is supplied.  Returns the reference to the
new record (Python returns the record object itself). -/
def register_model (reg : MultiModelRegistry) (model_id source model_type : String)
    (capabilities : List String) (abliteration_status : String)
    (endpoint : Option String) (metadata : List (String × String))
    (connector : Option Nat) : Except String (Nat × MultiModelRegistry) :=
  if (lookupTask reg.records model_id).isSome then
    .error (("model '") ++ model_id ++ ("' already registered"))
  else if reg.max_models ≤ reg.records.length then
    .error ("registry capacity reached")
  else
    let ρ := reg.nextRef
    let rec0 : ModelRecord :=
      ⟨model_id, source, model_type, capabilities, abliteration_status,
       endpoint, metadata⟩
    .ok (ρ, { reg with
                heap := reg.heap ++ [(ρ, rec0)]
                records := setTask reg.records model_id ρ
                connectors :=
                  match connector with
                  | some c => setTask reg.connectors model_id c
                  | none => reg.connectors
                nextRef := ρ + 1 })

/-- `get_model`: returns the stored record object, i.e. a live reference
into the heap (or `none` when unknown). -/
def get_model (reg : MultiModelRegistry) (model_id : String) : Option Nat :=
  lookupTask reg.records model_id

/-- `list_models`: a fresh list, but of the same live record references. -/
def list_models (reg : MultiModelRegistry) : List Nat :=
  reg.records.map (fun p => p.2)

/-- `update_status`: raises on an unknown id, otherwise mutates the stored
record object's `abliteration_status` in place. -/
def update_status (reg : MultiModelRegistry) (model_id status : String) :
    Except String MultiModelRegistry :=
  match lookupTask reg.records model_id with
  | none => .error (("unknown model '") ++ model_id ++ ("'"))
  | some ρ =>
    .ok { reg with
            heap := updateRecord reg.heap ρ
              (fun r => { r with abliteration_status := status }) }

/-- `export_records`: `asdict` copies every record's field values out of
the heap into a plain list decoupled from the registry's objects. -/
def export_records (reg : MultiModelRegistry) : List ModelRecord :=
  reg.records.filterMap (fun p => derefRecord reg.heap p.2)

/-! ## Batch workflow (`abliteration_workflow.py`) -/

/-- One `before`/`after`/`delta` metric dict of a `WorkflowResult`. -/
structure MetricTriple where
  before : Rat
  after : Rat
  delta : Rat
deriving DecidableEq, Repr

/-- `WorkflowResult` dataclass (per-unit success payload). -/
structure WorkflowResult where
  model_id : String
  refusal_rates : MetricTriple
  benchmark_scores : MetricTriple
  personality_shifts : MetricTriple
  task_ids : List String
deriving DecidableEq, Repr

/-- One element of the report's `models` list: either the success payload
dict or the `{model_id, error}` dict built in the exception handler. -/
inductive BatchEntry where
  | ok (r : WorkflowResult)
  | err (model_id : String) (error : String)
deriving DecidableEq, Repr

/-- The `summary` dict of a full report. -/
structure BatchSummary where
  total_models : Nat
  processed_models : Nat
  successful_models : Nat
  avg_refusal_reduction : Rat
  avg_benchmark_gain : Rat
deriving DecidableEq, Repr

/-- The report dict.  The empty-registry early return is
`{"models": [], "summary": {}}`: no summary fields and no `registry` key,
which the `Option` fields encode as `none`. -/
structure BatchReport where
  summary : Option BatchSummary
  models : List BatchEntry
  registry : Option (List ModelRecord)
deriving DecidableEq, Repr

/-- `update_status` as used inside `run_batch`, where every id submitted is
known (the `KeyError` branch is unreachable there). -/
def updateStatusD (reg : MultiModelRegistry) (model_id status : String) :
    MultiModelRegistry :=
  match update_status reg model_id status with
  | .ok reg' => reg'
  | .error _ => reg

/-- The record values `run_batch` reads through `registry.list_models()`
(each returned reference dereferenced against the current heap). -/
def listModelValues (reg : MultiModelRegistry) : List ModelRecord :=
  reg.records.filterMap (fun p => derefRecord reg.heap p.2)

/-- The ids actually submitted to the pool: records whose
`get_connector` is not `None`, in registry order (`continue` skips the
rest). -/
def submittedIds (reg : MultiModelRegistry) : List String :=
  ((listModelValues reg).filter
    (fun r => (lookupTask reg.connectors r.model_id).isSome)).map
    (fun r => r.model_id)

/-- The entry `run_batch` appends for one finished future: the payload
dict on success, `{model_id, error}` when `future.result()` re-raises. -/
def mkEntry (model_id : String) : Except String WorkflowResult → BatchEntry
  | .ok r => .ok r
  | .error e => .err model_id e

/-- `BatchAbliterationOrchestrator.run_batch`.  `outcome` gives each
submitted unit's workflow execution (its `WorkflowResult` or the exception
it raised); `completionOrder` is the order `as_completed` yields the
futures — any permutation of the submitted ids.  Returns the report, a
flag recording whether the report artifact was written to the batch
results file, and the updated registry. -/
def run_batch (reg : MultiModelRegistry)
    (outcome : String → Except String WorkflowResult)
    (completionOrder : List String) :
    BatchReport × Bool × MultiModelRegistry :=
  let models := listModelValues reg
  if models.isEmpty then
    (⟨none, [], none⟩, false, reg)
  else
    let submitted := submittedIds reg
    let reg1 := submitted.foldl
      (fun rg mid => updateStatusD rg mid ("running")) reg
    let results := completionOrder.map (fun mid => mkEntry mid (outcome mid))
    let reg2 := completionOrder.foldl
      (fun rg mid =>
        match outcome mid with
        | .ok _ => updateStatusD rg mid ("completed")
        | .error _ => updateStatusD rg mid ("failed")) reg1
    let successful := results.filterMap
      (fun e => match e with | .ok r => some r | .err _ _ => none)
    let summary : BatchSummary :=
      ⟨models.length, results.length, successful.length,
       if successful.length = 0 then 0
       else (successful.map (fun r => r.refusal_rates.delta)).sum / successful.length,
       if successful.length = 0 then 0
       else (successful.map (fun r => r.benchmark_scores.delta)).sum / successful.length⟩
    (⟨some summary, results, some (export_records reg2)⟩, true, reg2)

/-! ## Message bus (`message_bus.py`) -/

/-- `Subscription` dataclass; the handler callable is an opaque
identifier (dataclass equality compares both fields). -/
structure Subscription where
  pattern : String
  handler : Nat
deriving DecidableEq, Repr

/-- Python `s.endswith(t)` on the code-point sequence. -/
def strEndsWith (s suf : String) : Bool := suf.data.isSuffixOf s.data

/-- Python slicing `s[:-n]`: drop the last `n` code points. -/
def strDropRight (s : String) (n : Nat) : String :=
  ⟨s.data.take (s.data.length - n)⟩

/-- Python `s.startswith(p)`: `p` is a prefix of `s`. -/
def strStartsWith (s p : String) : Bool := p.data.isPrefixOf s.data

/-- `MessageBus._matches`: a pattern ending in `*` matches every route
starting with the pattern minus its final character; otherwise exact
equality. -/
def busMatches (pattern route : String) : Bool :=
  if strEndsWith pattern ("*") then strStartsWith route (strDropRight pattern 1)
  else pattern == route

/-- `MessageBus.publish`: snapshot the matching subscriptions in list
order and invoke each handler once; the value is the sequence of handler
identifiers invoked, in invocation order. -/
def busPublish (subs : List Subscription) (route : String) : List Nat :=
  (subs.filter (fun sub => busMatches sub.pattern route)).map
    (fun sub => sub.handler)

/-- `MessageBus.subscribe` appends the new subscription. -/
def busSubscribe (subs : List Subscription) (sub : Subscription) :
    List Subscription :=
  subs ++ [sub]

/-- The `_unsubscribe` closure: `list.remove` drops the first element
equal to the captured subscription, and the membership guard makes the
call a no-op when none is left. -/
def busUnsubscribe : List Subscription → Subscription → List Subscription
  | [], _ => []
  | x :: xs, sub => if x = sub then xs else x :: busUnsubscribe xs sub

/-! ## Orchestrator adapter (`orchestrator_adapter.py`) -/

/-- One `_sessions` record. -/
structure Session where
  task_id : String
  agent_id : String
  lock_token : String
deriving DecidableEq, Repr

/-- One message emitted through `MessageRouter.emit` (the router prefixes
its `orchestrator` namespace onto the event name); only the payload fields
the handlers place are kept, absent dict keys as `none`. -/
structure EmittedMsg where
  route : String
  session_id : Option String
  task_id : Option String
  lock_token : Option String
  outcome : Option String
  reason : Option String
deriving DecidableEq, Repr

/-- Adapter state: the session table, the underlying orchestrator's
persisted state, and the ordered log of emitted messages. -/
structure AdapterState where
  sessions : List (String × Session)
  orch : OrchState
  emitted : List EmittedMsg
deriving DecidableEq, Repr

/-- The `task_failed` message for an invalid or stale session. -/
def invalidSessionMsg (session_id : Option String) : EmittedMsg :=
  ⟨("orchestrator.task_failed"), session_id, none, none, none,
   some ("invalid session or lock token")⟩

/-- `_handle_heartbeat_request`: look up the presented session id, reject
on a missing session or a mismatched lock token, otherwise heartbeat the
orchestrator as the session's agent and emit an ack or a rejection. -/
def handleHeartbeatRequest (staleAfter now : Nat) (st : AdapterState)
    (session_id lock_token : Option String) : Except String AdapterState :=
  match session_id.bind (lookupTask st.sessions) with
  | none =>
    .ok { st with emitted := st.emitted ++ [invalidSessionMsg session_id] }
  | some sess =>
    if lock_token ≠ some sess.lock_token then
      .ok { st with emitted := st.emitted ++ [invalidSessionMsg session_id] }
    else
      match heartbeat staleAfter now st.orch sess.task_id sess.agent_id with
      | .error e => .error e
      | .ok (success, orch') =>
        if success then
          .ok { st with
                  orch := orch'
                  emitted := st.emitted ++
                    [⟨("orchestrator.task_heartbeat_ack"), session_id,
                      some sess.task_id, lock_token, none, none⟩] }
        else
          .ok { st with
                  orch := orch'
                  emitted := st.emitted ++
                    [⟨("orchestrator.task_failed"), session_id,
                      some sess.task_id, none, none,
                      some ("heartbeat rejected")⟩] }

/-- `_handle_release_request`: after the session/token check, run
`fail_task` or `complete_task` as the session's agent, then drop the
session *before* inspecting the boolean result; finally emit
`task_released`/`task_failed` on success or a rejection message. -/
def handleReleaseRequest (staleAfter now : Nat) (st : AdapterState)
    (session_id lock_token : Option String) (outcome : String)
    (release_reason : Option String) : Except String AdapterState :=
  match session_id, session_id.bind (lookupTask st.sessions) with
  | _, none =>
    .ok { st with emitted := st.emitted ++ [invalidSessionMsg session_id] }
  | sid?, some sess =>
    if lock_token ≠ some sess.lock_token then
      .ok { st with emitted := st.emitted ++ [invalidSessionMsg session_id] }
    else
      let call :=
        if outcome = ("failed") then
          (fail_task staleAfter now st.orch sess.task_id sess.agent_id
            (release_reason.getD ("released as failed"))).map
            (fun r => (r.1, r.2, ("orchestrator.task_failed")))
        else
          (complete_task staleAfter now st.orch sess.task_id sess.agent_id).map
            (fun r => (r.1, r.2, ("orchestrator.task_released")))
      match call with
      | .error e => .error e
      | .ok (success, orch', route) =>
        let st1 : AdapterState :=
          { st with
              orch := orch'
              sessions :=
                match sid? with
                | some sid => dropKey st.sessions sid
                | none => st.sessions }
        if success then
          .ok { st1 with
                  emitted := st1.emitted ++
                    [⟨route, session_id, some sess.task_id, lock_token,
                      some outcome, none⟩] }
        else
          .ok { st1 with
                  emitted := st1.emitted ++
                    [⟨("orchestrator.task_failed"), session_id,
                      some sess.task_id, none, none,
                      some ("task release rejected")⟩] }

/-! ## Store invariants -/

/-- Strengthened shape invariant of one persisted task record: the status
is `in_progress` exactly when a lock owner is recorded, and the owner and
heartbeat fields are set or cleared together. -/
def strongTaskInv (t : OrchTask) : Prop :=
  (t.status = ("in_progress") ↔ t.lock_owner ≠ none) ∧
  (t.lock_owner = none ↔ t.heartbeat_at = none)

/-- Every record of the persisted store satisfies `strongTaskInv`. -/
def storeOk (s : OrchState) : Prop := ∀ p ∈ s.tasks, strongTaskInv p.2

lemma lookupTask_mem {l : List (String × α)} {key : String} {v : α}
    (h : lookupTask l key = some v) : (key, v) ∈ l := by
  induction l with
  | nil => simp [lookupTask] at h
  | cons p rest ih =>
    obtain ⟨k, w⟩ := p
    simp only [lookupTask] at h
    split at h
    · simp_all
    · exact List.mem_cons_of_mem _ (ih h)

lemma mem_setTask {l : List (String × α)} {key : String} {v : α} {p : String × α}
    (h : p ∈ setTask l key v) : p = (key, v) ∨ p ∈ l := by
  induction l with
  | nil => simpa [setTask] using h
  | cons q rest ih =>
    obtain ⟨k, w⟩ := q
    simp only [setTask] at h
    split at h
    · next heq =>
      subst heq
      rcases List.mem_cons.mp h with h | h
      · exact Or.inl h
      · exact Or.inr (List.mem_cons_of_mem _ h)
    · rcases List.mem_cons.mp h with h | h
      · exact Or.inr (by simp [h])
      · rcases ih h with h | h
        · exact Or.inl h
        · exact Or.inr (List.mem_cons_of_mem _ h)

lemma recoverStaleLock_cases (a n : Nat) (t : OrchTask) :
    (recoverStaleLock a n t).1 = t ∨
    ((recoverStaleLock a n t).1.status = ("pending") ∧
     (recoverStaleLock a n t).1.lock_owner = none ∧
     (recoverStaleLock a n t).1.heartbeat_at = none) := by
  unfold recoverStaleLock
  rcases h1 : t.lock_owner with _ | o <;> rcases h2 : t.heartbeat_at with _ | hb <;>
    simp only []
  · exact Or.inl (by trivial)
  · exact Or.inl (by trivial)
  · exact Or.inl (by trivial)
  · split
    · exact Or.inl (by trivial)
    · split
      · exact Or.inl (by trivial)
      · exact Or.inr ⟨rfl, rfl, rfl⟩

lemma applyRecovery_tasks (a n : Nat) (s : OrchState) (tid : String)
    (t : OrchTask) : (applyRecovery a n s tid t).2.tasks = s.tasks := by
  unfold applyRecovery
  rcases h : recoverStaleLock a n t with ⟨t', po⟩
  rcases po with _ | po <;> simp

lemma applyRecovery_fst (a n : Nat) (s : OrchState) (tid : String)
    (t : OrchTask) : (applyRecovery a n s tid t).1 = (recoverStaleLock a n t).1 := by
  unfold applyRecovery
  rcases h : recoverStaleLock a n t with ⟨t', po⟩
  rcases po with _ | po <;> simp

lemma recoverStaleLock_spec (a n : Nat) (t : OrchTask) :
    recoverStaleLock a n t = (t, none) ∨
    ∃ o hb, t.lock_owner = some o ∧ ¬ o = ("") ∧ t.heartbeat_at = some hb ∧
      ¬ (n - hb ≤ a) ∧
      recoverStaleLock a n t =
        ({ t with
            status := ("pending"), lock_owner := none
            lock_acquired_at := none, heartbeat_at := none }, some o) := by
  unfold recoverStaleLock
  rcases h1 : t.lock_owner with _ | o <;> rcases h2 : t.heartbeat_at with _ | hb <;>
    simp only [h1, h2]
  · exact Or.inl (by trivial)
  · exact Or.inl (by trivial)
  · exact Or.inl (by trivial)
  · split
    · exact Or.inl (by trivial)
    · split
      · exact Or.inl (by trivial)
      · next ho hle => exact Or.inr ⟨o, hb, rfl, ho, rfl, hle, rfl⟩

lemma recoverStaleLock_snd_none {a n : Nat} {t : OrchTask}
    (h : (recoverStaleLock a n t).2 = none) : (recoverStaleLock a n t).1 = t := by
  rcases recoverStaleLock_spec a n t with he | ⟨o, hb, _, _, _, _, he⟩
  · rw [he]
  · rw [he] at h; cases h

lemma recoverStaleLock_snd_some {a n : Nat} {t : OrchTask} {po : String}
    (h : (recoverStaleLock a n t).2 = some po) :
    (recoverStaleLock a n t).1.status = ("pending") ∧
    (recoverStaleLock a n t).1.lock_owner = none ∧
    (recoverStaleLock a n t).1.heartbeat_at = none := by
  rcases recoverStaleLock_spec a n t with he | ⟨o, hb, _, _, _, _, he⟩
  · rw [he] at h; cases h
  · rw [he]; exact ⟨rfl, rfl, rfl⟩

lemma storeOk_create {now : Nat} {s : OrchState} {title cb : String}
    {payload : List (String × String)} (hs : storeOk s) :
    storeOk (create_task now s title payload cb).2 := by
  intro p hp
  simp only [create_task] at hp
  rcases mem_setTask hp with rfl | hp
  · exact ⟨by simp, by simp⟩
  · exact hs _ hp

lemma storeOk_claim {a n : Nat} {s : OrchState} {tid aid : String} {b : Bool}
    {s' : OrchState} (hs : storeOk s)
    (h : claim_task a n s tid aid = .ok (b, s')) : storeOk s' := by
  unfold claim_task at h
  rcases hl : lookupTask s.tasks tid with _ | t0 <;> rw [hl] at h
  · cases h
  · simp only [] at h
    split at h
    · simp only [Except.ok.injEq, Prod.mk.injEq] at h
      obtain ⟨-, rfl⟩ := h
      intro p hp
      rw [applyRecovery_tasks] at hp
      exact hs _ hp
    · split at h
      · simp only [Except.ok.injEq, Prod.mk.injEq] at h
        obtain ⟨-, rfl⟩ := h
        intro p hp
        rw [applyRecovery_tasks] at hp
        exact hs _ hp
      · simp only [Except.ok.injEq, Prod.mk.injEq] at h
        obtain ⟨-, rfl⟩ := h
        intro p hp
        simp only [] at hp
        rcases mem_setTask hp with rfl | hp
        · exact ⟨by simp, by simp⟩
        · rw [applyRecovery_tasks] at hp
          exact hs _ hp

lemma storeOk_heartbeat {a n : Nat} {s : OrchState} {tid aid : String} {b : Bool}
    {s' : OrchState} (hs : storeOk s)
    (h : heartbeat a n s tid aid = .ok (b, s')) : storeOk s' := by
  unfold heartbeat at h
  rcases hl : lookupTask s.tasks tid with _ | t0 <;> rw [hl] at h
  · cases h
  · simp only [] at h
    split at h
    · simp only [Except.ok.injEq, Prod.mk.injEq] at h
      obtain ⟨-, rfl⟩ := h
      intro p hp
      rw [applyRecovery_tasks] at hp
      exact hs _ hp
    · next hown =>
      rw [not_ne_iff] at hown
      rw [applyRecovery_fst] at hown
      simp only [Except.ok.injEq, Prod.mk.injEq] at h
      obtain ⟨-, rfl⟩ := h
      intro p hp
      simp only [] at hp
      rcases mem_setTask hp with rfl | hp
      · rcases hr : (recoverStaleLock a n t0).2 with _ | po
        · have heq := recoverStaleLock_snd_none hr
          rw [heq] at hown
          have hinv := hs _ (lookupTask_mem hl)
          have hstat : t0.status = ("in_progress") := hinv.1.mpr (by simp [hown])
          exact ⟨by simp [applyRecovery_fst, heq, hstat, hown],
                 by simp [applyRecovery_fst, heq, hown]⟩
        · have hshape := (recoverStaleLock_snd_some hr).2.1
          rw [hown] at hshape
          cases hshape
      · rw [applyRecovery_tasks] at hp
        exact hs _ hp

lemma storeOk_complete {a n : Nat} {s : OrchState} {tid aid : String} {b : Bool}
    {s' : OrchState} (hs : storeOk s)
    (h : complete_task a n s tid aid = .ok (b, s')) : storeOk s' := by
  unfold complete_task at h
  rcases hl : lookupTask s.tasks tid with _ | t0 <;> rw [hl] at h
  · cases h
  · simp only [] at h
    split at h
    · simp only [Except.ok.injEq, Prod.mk.injEq] at h
      obtain ⟨-, rfl⟩ := h
      intro p hp
      rw [applyRecovery_tasks] at hp
      exact hs _ hp
    · simp only [Except.ok.injEq, Prod.mk.injEq] at h
      obtain ⟨-, rfl⟩ := h
      intro p hp
      simp only [] at hp
      rcases mem_setTask hp with rfl | hp
      · exact ⟨by simp, by simp⟩
      · rw [applyRecovery_tasks] at hp
        exact hs _ hp

lemma storeOk_fail {a n : Nat} {s : OrchState} {tid aid reason : String} {b : Bool}
    {s' : OrchState} (hs : storeOk s)
    (h : fail_task a n s tid aid reason = .ok (b, s')) : storeOk s' := by
  unfold fail_task at h
  rcases hl : lookupTask s.tasks tid with _ | t0 <;> rw [hl] at h
  · cases h
  · simp only [] at h
    split at h
    · simp only [Except.ok.injEq, Prod.mk.injEq] at h
      obtain ⟨-, rfl⟩ := h
      intro p hp
      rw [applyRecovery_tasks] at hp
      exact hs _ hp
    · simp only [Except.ok.injEq, Prod.mk.injEq] at h
      obtain ⟨-, rfl⟩ := h
      intro p hp
      simp only [] at hp
      rcases mem_setTask hp with rfl | hp
      · exact ⟨by simp, by simp⟩
      · rw [applyRecovery_tasks] at hp
        exact hs _ hp

lemma storeOk_recoverAll (a n : Nat) :
    ∀ l : List (String × OrchTask), (∀ p ∈ l, strongTaskInv p.2) →
      ∀ p ∈ (recoverAll a n l).1, strongTaskInv p.2 := by
  intro l
  induction l with
  | nil => intro _ p hp; simp [recoverAll] at hp
  | cons q rest ih =>
    intro hl p hp
    obtain ⟨k, t⟩ := q
    simp only [recoverAll] at hp
    rcases hr : (recoverStaleLock a n t).2 with _ | po <;> rw [hr] at hp <;>
      simp only [] at hp
    · rcases List.mem_cons.mp hp with rfl | hp
      · exact hl _ (List.mem_cons_self _ _)
      · exact ih (fun q hq => hl _ (List.mem_cons_of_mem _ hq)) _ hp
    · rcases List.mem_cons.mp hp with rfl | hp
      · have hshape := recoverStaleLock_snd_some hr
        exact ⟨by simp [hshape.1, hshape.2.1], by simp [hshape.2.1, hshape.2.2]⟩
      · exact ih (fun q hq => hl _ (List.mem_cons_of_mem _ hq)) _ hp

lemma storeOk_recover {a n : Nat} {s : OrchState} (hs : storeOk s) :
    storeOk (recover_stale_tasks a n s).2 := by
  intro p hp
  simp only [recover_stale_tasks] at hp
  exact storeOk_recoverAll a n s.tasks hs p hp

lemma storeOk_runOp {a : Nat} {s : OrchState} (hs : storeOk s) (op : Op) :
    storeOk (runOp a s op) := by
  cases op with
  | create now title payload cb => exact storeOk_create hs
  | claim now tid aid =>
    simp only [runOp]
    rcases h : claim_task a now s tid aid with e | r
    · exact hs
    · obtain ⟨b, s'⟩ := r
      exact storeOk_claim hs h
  | beat now tid aid =>
    simp only [runOp]
    rcases h : heartbeat a now s tid aid with e | r
    · exact hs
    · obtain ⟨b, s'⟩ := r
      exact storeOk_heartbeat hs h
  | complete now tid aid =>
    simp only [runOp]
    rcases h : complete_task a now s tid aid with e | r
    · exact hs
    · obtain ⟨b, s'⟩ := r
      exact storeOk_complete hs h
  | fail now tid aid reason =>
    simp only [runOp]
    rcases h : fail_task a now s tid aid reason with e | r
    · exact hs
    · obtain ⟨b, s'⟩ := r
      exact storeOk_fail hs h
  | recover now => exact storeOk_recover hs

lemma storeOk_runOps (a : Nat) (ops : List Op) : storeOk (runOps a ops) := by
  have main : ∀ s, storeOk s → storeOk (ops.foldl (runOp a) s) := by
    induction ops with
    | nil => intro s hs; exact hs
    | cons op rest ih => intro s hs; exact ih _ (storeOk_runOp hs op)
  exact main initState (by intro p hp; simp [initState] at hp)

/-! ## Claim theorems -/

/-- Claim C1: for every task record in the persisted task store, after any
sequence of AgentOrchestrator operations (create, claim, heartbeat,
complete, fail, recover) starting from an empty store, the task's status
equals `in_progress` if and only if its `lock_owner` is non-null and its
`heartbeat_at` is non-null. -/
theorem task_status_iff_lock_and_heartbeat (staleAfter : Nat) (ops : List Op)
    (p : String × OrchTask) (hp : p ∈ (runOps staleAfter ops).tasks) :
    p.2.status = ("in_progress") ↔
      (p.2.lock_owner ≠ none ∧ p.2.heartbeat_at ≠ none) := by
  obtain ⟨h1, h2⟩ := storeOk_runOps staleAfter ops p hp
  constructor
  · intro hs
    refine ⟨h1.mp hs, fun hhb => h1.mp hs (h2.mpr hhb)⟩
  · intro h
    exact h1.mpr h.1

/-- The create-then-claim demonstration state shared by several concrete
witnesses: `task_0` claimed by `agent1` at time 0 with `staleAfter = 90`. -/
def demoState : OrchState :=
  runOps 90 [.create 0 ("x") [] ("creator"), .claim 0 ("task_0") ("agent1")]

/-- The task record persisted in `demoState`. -/
def demoTask : OrchTask :=
  ⟨("task_0"), ("x"), [], 0, ("creator"), ("in_progress"), some ("agent1"),
   some 0, some 0, none, none⟩

/-- Witness for C1: a concrete create-then-claim run. -/
theorem task_status_iff_lock_and_heartbeat_witness :
    (("task_0"), demoTask) ∈ demoState.tasks ∧
    (demoTask.status = ("in_progress") ↔
      (demoTask.lock_owner ≠ none ∧ demoTask.heartbeat_at ≠ none)) :=
  ⟨by decide,
   task_status_iff_lock_and_heartbeat 90
     [.create 0 ("x") [] ("creator"), .claim 0 ("task_0") ("agent1")]
     (("task_0"), demoTask) (by decide)⟩

/-- Claim C2 counterexample: one claim by `agent1`, one stale transition
(no heartbeat until past the 90-second window), yet the event log ends up
with TWO `lock_recovered` events: the stale heartbeat at t=200 logs one
without persisting the reset (the denial path skips `_save_tasks`), and
`agent2`'s claim at t=200 recovers — and logs — again.  The claim's
"exactly one `lock_recovered` event per stale transition, regardless of
which operations touch the task after it went stale" is therefore false. -/
theorem stale_transition_two_lock_recovered_events :
    ((runOps 90 [.create 0 ("x") [] ("creator"),
                 .claim 0 ("task_0") ("agent1"),
                 .beat 200 ("task_0") ("agent1"),
                 .claim 200 ("task_0") ("agent2")]).events.map
      (fun e => e.type)) =
      [("task_created"), ("task_claimed"), ("lock_recovered"),
       ("lock_recovered"), ("task_claimed")] ∧
    ((runOps 90 [.create 0 ("x") [] ("creator"),
                 .claim 0 ("task_0") ("agent1"),
                 .beat 200 ("task_0") ("agent1"),
                 .claim 200 ("task_0") ("agent2")]).events.filter
      (fun e => e.type == ("lock_recovered"))).length = 2 := by
  constructor
  · decide
  · decide

/-- Claim C2, amended: a task whose heartbeat age exceeds the stale
timeout is reclaimable by any agent on the next `claim_task`, and that
claim appends exactly one `lock_recovered` event carrying the previous
owner (followed by the `task_claimed` event).  However — per the
counterexample — `heartbeat`/`complete_task`/`fail_task` on a stale task
also log a `lock_recovered` event without persisting the reset, so several
such events can be logged for a single stale transition. -/
theorem stale_task_claim_recovers_and_logs_once (staleAfter now : Nat)
    (s : OrchState) (tid aid o : String) (t : OrchTask) (hb : Nat)
    (hl : lookupTask s.tasks tid = some t)
    (ho : t.lock_owner = some o) (hne : o ≠ (""))
    (hhb : t.heartbeat_at = some hb)
    (hstale : ¬ (now - hb ≤ staleAfter)) :
    claim_task staleAfter now s tid aid =
      .ok (true,
        { tasks := setTask s.tasks tid
            ({ t with
                status := ("in_progress"), lock_owner := some aid
                lock_acquired_at := some now, heartbeat_at := some now })
          events := s.events ++
            [mkEvent now ("lock_recovered") tid ("orchestrator")
               [(("previous_owner"), o)],
             mkEvent now ("task_claimed") tid aid []]
          nextId := s.nextId }) := by
  have hrec : recoverStaleLock staleAfter now t =
      ({ t with
          status := ("pending"), lock_owner := none
          lock_acquired_at := none, heartbeat_at := none }, some o) := by
    unfold recoverStaleLock
    rw [ho, hhb]
    simp [hne, hstale]
  unfold claim_task
  rw [hl]
  simp only [applyRecovery, hrec, blockingOwner]
  simp [mkEvent]

/-- Witness for the amended C2 at the concrete stale run. -/
theorem stale_task_claim_recovers_and_logs_once_witness :
    lookupTask demoState.tasks ("task_0") = some demoTask ∧
    claim_task 90 200 demoState ("task_0") ("agent2") =
      .ok (true,
        { tasks := setTask demoState.tasks ("task_0")
            ({ demoTask with
                status := ("in_progress"), lock_owner := some ("agent2")
                lock_acquired_at := some 200, heartbeat_at := some 200 })
          events := demoState.events ++
            [mkEvent 200 ("lock_recovered") ("task_0") ("orchestrator")
               [(("previous_owner"), ("agent1"))],
             mkEvent 200 ("task_claimed") ("task_0") ("agent2") []]
          nextId := demoState.nextId }) :=
  ⟨by decide,
   stale_task_claim_recovers_and_logs_once 90 200 demoState ("task_0")
     ("agent2") ("agent1") demoTask 0 (by decide) (by decide) (by decide)
     (by decide) (by decide)⟩

/-- The demonstration state in which `task_0` was claimed — live heartbeat
at time 0 — by the *empty-string* agent id. -/
def emptyOwnerState : OrchState :=
  runOps 90 [.create 0 ("x") [] ("creator"), .claim 0 ("task_0") ("")]

/-- Claim C4 counterexample: `task_0` in `emptyOwnerState` is claimed by a
live owner (the empty-string agent, heartbeat age 0 < 90), yet
`claim_task` by the different agent `agent2` returns `true` and replaces
`lock_owner` — Python's `if owner and owner != agent_id` treats the falsy
empty-string owner as unclaimed.  The claim's "returns false and leaves
the record unchanged for every live-claimed task" is therefore false. -/
theorem live_claimed_empty_owner_reclaim_counterexample :
    lookupTask emptyOwnerState.tasks ("task_0") =
      some ⟨("task_0"), ("x"), [], 0, ("creator"), ("in_progress"),
            some (""), some 0, some 0, none, none⟩ ∧
    (claim_task 90 0 emptyOwnerState ("task_0") ("agent2")).map
      (fun r => r.1) = .ok true ∧
    (claim_task 90 0 emptyOwnerState ("task_0") ("agent2")).map
      (fun r => (lookupTask r.2.tasks ("task_0")).map
        (fun u => u.lock_owner)) = .ok (some (some ("agent2"))) := by
  refine ⟨by decide, by rfl, by rfl⟩

/-- Claim C4, amended: for every task claimed by a live owner whose agent
id is a *non-empty* string, `claim_task` by a different agent returns
`false` and leaves the persisted state completely unchanged; and
`complete_task`/`fail_task` by a non-owner likewise return `false` and
leave the state unchanged. -/
theorem live_claim_other_agent_denied (staleAfter now : Nat) (s : OrchState)
    (tid aid o reason : String) (t : OrchTask) (hb : Nat)
    (hl : lookupTask s.tasks tid = some t)
    (ho : t.lock_owner = some o) (hne : o ≠ (""))
    (hhb : t.heartbeat_at = some hb)
    (hlive : now - hb ≤ staleAfter) (haid : aid ≠ o) :
    claim_task staleAfter now s tid aid = .ok (false, s) ∧
    complete_task staleAfter now s tid aid = .ok (false, s) ∧
    fail_task staleAfter now s tid aid reason = .ok (false, s) := by
  have hrec : recoverStaleLock staleAfter now t = (t, none) := by
    unfold recoverStaleLock
    rw [ho, hhb]
    simp [hne, hlive]
  have hblock : blockingOwner t.lock_owner aid = true := by
    rw [ho]
    unfold blockingOwner
    simp [hne]
    exact fun h => haid h.symm
  have hown : t.lock_owner ≠ some aid := by
    rw [ho]
    simp
    exact fun h => haid h.symm
  refine ⟨?_, ?_, ?_⟩
  · unfold claim_task
    rw [hl]
    simp only [applyRecovery, hrec]
    split
    · rfl
    · simp [hblock]
  · unfold complete_task
    rw [hl]
    simp only [applyRecovery, hrec]
    rw [if_pos hown]
  · unfold fail_task
    rw [hl]
    simp only [applyRecovery, hrec]
    rw [if_pos hown]

/-- Witness for the amended C4 at the concrete live-claimed state. -/
theorem live_claim_other_agent_denied_witness :
    claim_task 90 10 demoState ("task_0") ("agent2") = .ok (false, demoState) ∧
    complete_task 90 10 demoState ("task_0") ("agent2") = .ok (false, demoState) ∧
    fail_task 90 10 demoState ("task_0") ("agent2") ("r") = .ok (false, demoState) :=
  live_claim_other_agent_denied 90 10 demoState ("task_0") ("agent2")
    ("agent1") ("r") demoTask 0 (by decide) (by decide) (by decide) (by decide)
    (by decide) (by decide)

/-- Claim C5 counterexample: re-claiming `task_0` by its current owner
`agent1` at time 10 returns `true` but refreshes `lock_acquired_at` and
`heartbeat_at` from 0 to 10 — the persisted record does change, contrary
to "refreshes nothing extra: no field changes". -/
theorem reclaim_by_owner_refresh_counterexample :
    lookupTask demoState.tasks ("task_0") = some demoTask ∧
    demoTask.heartbeat_at = some 0 ∧
    demoTask.lock_acquired_at = some 0 ∧
    (claim_task 90 10 demoState ("task_0") ("agent1")).map
      (fun r => r.1) = .ok true ∧
    (claim_task 90 10 demoState ("task_0") ("agent1")).map
      (fun r => (lookupTask r.2.tasks ("task_0")).map
        (fun u => (u.heartbeat_at, u.lock_acquired_at))) =
      .ok (some (some 10, some 10)) := by
  refine ⟨by decide, by decide, by decide, by rfl, by rfl⟩

/-- Claim C5, amended: re-claiming a live `in_progress` task by its
current owner returns `true` and refreshes exactly `lock_acquired_at` and
`heartbeat_at` to the current time (re-writing `status` and `lock_owner`
with their existing values); every other field of the persisted record is
unchanged, and one more `task_claimed` event is appended. -/
theorem reclaim_by_owner_refreshes_timestamps (staleAfter now : Nat)
    (s : OrchState) (tid o : String) (t : OrchTask) (hb : Nat)
    (hl : lookupTask s.tasks tid = some t)
    (ho : t.lock_owner = some o) (hhb : t.heartbeat_at = some hb)
    (hstat : t.status = ("in_progress"))
    (hlive : now - hb ≤ staleAfter) :
    claim_task staleAfter now s tid o =
      .ok (true,
        { tasks := setTask s.tasks tid
            ({ t with
                status := ("in_progress"), lock_owner := some o
                lock_acquired_at := some now, heartbeat_at := some now })
          events := s.events ++ [mkEvent now ("task_claimed") tid o []]
          nextId := s.nextId }) := by
  have hrec : recoverStaleLock staleAfter now t = (t, none) := by
    unfold recoverStaleLock
    rw [ho, hhb]
    by_cases he : o = ("") <;> simp [he, hlive]
  have hblock : blockingOwner t.lock_owner o = false := by
    rw [ho]
    unfold blockingOwner
    by_cases he : o = ("") <;> simp [he]
  unfold claim_task
  rw [hl]
  simp only [applyRecovery, hrec]
  rw [if_neg (by simp [hstat])]
  rw [hblock]
  simp [mkEvent]

/-- Witness for the amended C5 at the concrete live-claimed state. -/
theorem reclaim_by_owner_refreshes_timestamps_witness :
    claim_task 90 10 demoState ("task_0") ("agent1") =
      .ok (true,
        { tasks := setTask demoState.tasks ("task_0")
            ({ demoTask with
                status := ("in_progress"), lock_owner := some ("agent1")
                lock_acquired_at := some 10, heartbeat_at := some 10 })
          events := demoState.events ++
            [mkEvent 10 ("task_claimed") ("task_0") ("agent1") []]
          nextId := demoState.nextId }) :=
  reclaim_by_owner_refreshes_timestamps 90 10 demoState ("task_0")
    ("agent1") demoTask 0 (by decide) (by decide) (by decide) (by decide)
    (by decide)

/-- Claim C6: for every `task_id` absent from the task store, each of
`claim_task`, `heartbeat`, `complete_task`, `fail_task` and `get_task`
raises the distinct not-found failure (`KeyError("Unknown task_id: …")`);
and for every `task_id` present, these operations never raise — ownership
or terminal-state denials surface only as the boolean `false`. -/
theorem unknown_task_raises_known_returns (staleAfter now : Nat)
    (s : OrchState) (tid aid reason : String) :
    (lookupTask s.tasks tid = none →
      claim_task staleAfter now s tid aid =
        .error (("Unknown task_id: ") ++ tid) ∧
      heartbeat staleAfter now s tid aid =
        .error (("Unknown task_id: ") ++ tid) ∧
      complete_task staleAfter now s tid aid =
        .error (("Unknown task_id: ") ++ tid) ∧
      fail_task staleAfter now s tid aid reason =
        .error (("Unknown task_id: ") ++ tid) ∧
      get_task s tid = .error (("Unknown task_id: ") ++ tid)) ∧
    (∀ t, lookupTask s.tasks tid = some t →
      (∃ r, claim_task staleAfter now s tid aid = .ok r) ∧
      (∃ r, heartbeat staleAfter now s tid aid = .ok r) ∧
      (∃ r, complete_task staleAfter now s tid aid = .ok r) ∧
      (∃ r, fail_task staleAfter now s tid aid reason = .ok r) ∧
      get_task s tid = .ok t) := by
  constructor
  · intro hn
    refine ⟨?_, ?_, ?_, ?_, ?_⟩
    · unfold claim_task
      rw [hn]
    · unfold heartbeat
      rw [hn]
    · unfold complete_task
      rw [hn]
    · unfold fail_task
      rw [hn]
    · unfold get_task
      rw [hn]
  · intro t ht
    refine ⟨?_, ?_, ?_, ?_, ?_⟩
    · unfold claim_task
      rw [ht]
      simp only []
      split
      · exact ⟨_, rfl⟩
      · split
        · exact ⟨_, rfl⟩
        · exact ⟨_, rfl⟩
    · unfold heartbeat
      rw [ht]
      simp only []
      split
      · exact ⟨_, rfl⟩
      · exact ⟨_, rfl⟩
    · unfold complete_task
      rw [ht]
      simp only []
      split
      · exact ⟨_, rfl⟩
      · exact ⟨_, rfl⟩
    · unfold fail_task
      rw [ht]
      simp only []
      split
      · exact ⟨_, rfl⟩
      · exact ⟨_, rfl⟩
    · unfold get_task
      rw [ht]

/-- Witness for C6: the unknown id `nope` raises on every operation while
the live id `task_0` never does. -/
theorem unknown_task_raises_known_returns_witness :
    (claim_task 90 0 demoState ("nope") ("a") =
      .error (("Unknown task_id: ") ++ ("nope"))) ∧
    (get_task demoState ("nope") = .error (("Unknown task_id: ") ++ ("nope"))) ∧
    (∃ r, claim_task 90 0 demoState ("task_0") ("a") = .ok r) ∧
    get_task demoState ("task_0") = .ok demoTask :=
  ⟨((unknown_task_raises_known_returns 90 0 demoState ("nope") ("a")
      ("r")).1 (by decide)).1,
   ((unknown_task_raises_known_returns 90 0 demoState ("nope") ("a")
      ("r")).1 (by decide)).2.2.2.2,
   ((unknown_task_raises_known_returns 90 0 demoState ("task_0") ("a")
      ("r")).2 demoTask (by decide)).1,
   ((unknown_task_raises_known_returns 90 0 demoState ("task_0") ("a")
      ("r")).2 demoTask (by decide)).2.2.2.2⟩

lemma busUnsubscribe_spec (l : List Subscription) (sub : Subscription)
    (h : sub ∈ l) : ∃ l1 l2, l = l1 ++ sub :: l2 ∧ sub ∉ l1 ∧
      busUnsubscribe l sub = l1 ++ l2 := by
  induction l with
  | nil => cases h
  | cons x xs ih =>
    by_cases he : x = sub
    · subst he
      exact ⟨[], xs, rfl, by simp, by simp [busUnsubscribe]⟩
    · rcases List.mem_cons.mp h with rfl | h2
      · exact absurd rfl he
      · obtain ⟨l1, l2, heq, hnm, hrm⟩ := ih h2
        refine ⟨x :: l1, l2, by simp [heq], ?_, ?_⟩
        · simp only [List.mem_cons, not_or]
          exact ⟨Ne.symm he, hnm⟩
        · simp [busUnsubscribe, he, hrm]

/-- Claim C8: a subscription pattern ending in the wildcard matches
exactly the routes sharing its prefix; publishing a route invokes every
matching handler once, in subscription order (empty/cons recurrence of the
invocation list, which is a sublist of the handlers in subscription
order); the unsubscribe closure removes exactly the first occurrence of
its subscription and nothing else; and Scenario D holds concretely:
subscribing to `orchestrator.*` and publishing `orchestrator.task_claimed`
fires the handler once, and after unsubscribing a second publish fires
nothing. -/
theorem bus_match_publish_unsubscribe (subs : List Subscription)
    (pattern route : String) (x : Subscription) (xs : List Subscription)
    (sub : Subscription) :
    (strEndsWith pattern ("*") = true →
      (busMatches pattern route = true ↔
        ((strDropRight pattern 1).data.isPrefixOf route.data) = true)) ∧
    busPublish [] route = [] ∧
    (busPublish (x :: xs) route =
      (if busMatches x.pattern route then [x.handler] else []) ++
        busPublish xs route) ∧
    (busPublish subs route).Sublist (subs.map (fun u => u.handler)) ∧
    (sub ∈ subs → ∃ l1 l2, subs = l1 ++ sub :: l2 ∧ sub ∉ l1 ∧
      busUnsubscribe subs sub = l1 ++ l2) ∧
    (busPublish (busSubscribe [] ⟨("orchestrator.*"), 0⟩)
        ("orchestrator.task_claimed") = [0] ∧
     busUnsubscribe (busSubscribe [] ⟨("orchestrator.*"), 0⟩)
        ⟨("orchestrator.*"), 0⟩ = [] ∧
     busPublish
        (busUnsubscribe (busSubscribe [] ⟨("orchestrator.*"), 0⟩)
          ⟨("orchestrator.*"), 0⟩) ("orchestrator.task_claimed") = []) := by
  refine ⟨?_, rfl, ?_, ?_, busUnsubscribe_spec subs sub, by decide, by decide, by decide⟩
  · intro hend
    unfold busMatches
    rw [if_pos hend]
    exact Iff.rfl
  · unfold busPublish
    by_cases hm : busMatches x.pattern route <;>
      simp [List.filter_cons, hm]
  · exact (List.filter_sublist _).map _

/-- Witness for C8 at the Scenario D subscription. -/
theorem bus_match_publish_unsubscribe_witness :
    (busMatches ("orchestrator.*") ("orchestrator.task_claimed") = true ↔
      ((strDropRight ("orchestrator.*") 1).data.isPrefixOf
        ("orchestrator.task_claimed").data) = true) ∧
    (∃ l1 l2,
      [(⟨("orchestrator.*"), 0⟩ : Subscription)] =
        l1 ++ (⟨("orchestrator.*"), 0⟩ : Subscription) :: l2 ∧
      (⟨("orchestrator.*"), 0⟩ : Subscription) ∉ l1 ∧
      busUnsubscribe [⟨("orchestrator.*"), 0⟩] ⟨("orchestrator.*"), 0⟩ =
        l1 ++ l2) ∧
    busPublish (busSubscribe [] ⟨("orchestrator.*"), 0⟩)
      ("orchestrator.task_claimed") = [0] :=
  ⟨(bus_match_publish_unsubscribe [⟨("orchestrator.*"), 0⟩]
      ("orchestrator.*") ("orchestrator.task_claimed")
      ⟨("orchestrator.*"), 0⟩ [] ⟨("orchestrator.*"), 0⟩).1 (by decide),
   (bus_match_publish_unsubscribe [⟨("orchestrator.*"), 0⟩]
      ("orchestrator.*") ("orchestrator.task_claimed")
      ⟨("orchestrator.*"), 0⟩ [] ⟨("orchestrator.*"), 0⟩).2.2.2.2.1
      (by decide),
   (bus_match_publish_unsubscribe [⟨("orchestrator.*"), 0⟩]
      ("orchestrator.*") ("orchestrator.task_claimed")
      ⟨("orchestrator.*"), 0⟩ [] ⟨("orchestrator.*"), 0⟩).2.2.2.2.2.1⟩

lemma derefRecord_updateRecord_self (heap : List (Nat × ModelRecord))
    (ρ : Nat) (f : ModelRecord → ModelRecord) :
    derefRecord (updateRecord heap ρ f) ρ = (derefRecord heap ρ).map f := by
  induction heap with
  | nil => rfl
  | cons p rest ih =>
    obtain ⟨k, v⟩ := p
    by_cases hk : k = ρ
    · subst hk
      simp [updateRecord, derefRecord]
    · simp [updateRecord, derefRecord, hk, ih]

/-- A one-record registry: `m1`, status `pending`, no connector, occupying
heap cell 0. -/
def oneModelReg : MultiModelRegistry :=
  ⟨32, [(0, ⟨("m1"), ("src"), ("llm"), [], ("pending"), none, []⟩)],
   [(("m1"), 0)], [], 1⟩

/-- `oneModelReg` after `update_status("m1", "running")` mutated the
record object in place. -/
def oneModelRegRunning : MultiModelRegistry :=
  ⟨32, [(0, ⟨("m1"), ("src"), ("llm"), [], ("running"), none, []⟩)],
   [(("m1"), 0)], [], 1⟩

/-- Claim C7 counterexample: `get_model` returns the *live* record object
(heap reference 0); after `update_status("m1", "running")` that previously
returned record reads `running` where it read `pending` at return time —
a later registry operation changed a previously returned snapshot, so
"every registry read returns a snapshot decoupled from live state" is
false for `get_model`/`list_models`.  (`export_records`, by contrast,
copies the field values out: the earlier export below keeps `pending`.) -/
theorem registry_get_model_alias_counterexample :
    register_model (emptyRegistry 32) ("m1") ("src") ("llm") [] ("pending")
      none [] none = .ok (0, oneModelReg) ∧
    get_model oneModelReg ("m1") = some 0 ∧
    (derefRecord oneModelReg.heap 0).map (fun r => r.abliteration_status) =
      some ("pending") ∧
    export_records oneModelReg =
      [⟨("m1"), ("src"), ("llm"), [], ("pending"), none, []⟩] ∧
    update_status oneModelReg ("m1") ("running") = .ok oneModelRegRunning ∧
    (derefRecord oneModelRegRunning.heap 0).map
      (fun r => r.abliteration_status) = some ("running") := by
  refine ⟨by rfl, by rfl, by rfl, by rfl, by rfl, by rfl⟩

/-- Claim C7, amended: `export_records` returns a decoupled point-in-time
copy of the field values (a pure list no registry operation can rewrite),
but `get_model` and `list_models` return live references: after
`update_status(mid, status)`, dereferencing a previously returned
reference for `mid` yields the record with the new status — previously
returned records do change.  `update_status` touches only the heap: the
id-to-reference table and the connector table are untouched. -/
theorem update_status_changes_returned_reference (reg : MultiModelRegistry)
    (mid status : String) (ρ : Nat) (reg' : MultiModelRegistry)
    (hg : get_model reg mid = some ρ)
    (hu : update_status reg mid status = .ok reg') :
    derefRecord reg'.heap ρ =
      (derefRecord reg.heap ρ).map
        (fun r => { r with abliteration_status := status }) ∧
    reg'.records = reg.records ∧
    reg'.connectors = reg.connectors := by
  unfold update_status at hu
  unfold get_model at hg
  rw [hg] at hu
  simp only [Except.ok.injEq] at hu
  subst hu
  refine ⟨?_, rfl, rfl⟩
  exact derefRecord_updateRecord_self reg.heap ρ
    (fun r => { r with abliteration_status := status })

/-- Witness for the amended C7 at the one-record registry. -/
theorem update_status_changes_returned_reference_witness :
    derefRecord oneModelRegRunning.heap 0 =
      (derefRecord oneModelReg.heap 0).map
        (fun r => { r with abliteration_status := ("running") }) ∧
    oneModelRegRunning.records = oneModelReg.records ∧
    oneModelRegRunning.connectors = oneModelReg.connectors :=
  update_status_changes_returned_reference oneModelReg ("m1") ("running") 0
    oneModelRegRunning (by rfl) (by rfl)

/-- A registry holding one record (`m1`) with *no* attached connector. -/
def noConnectorReg : MultiModelRegistry :=
  ⟨32, [(0, ⟨("m1"), ("src"), ("llm"), [], ("pending"), none, []⟩)],
   [(("m1"), 0)], [], 1⟩

/-- Claim C3 counterexample: a registry with N = 1 entries whose record
has no attached connector.  `run_batch` skips it (`if connector is None:
continue`), so the report's `models` list has 0 entries, not 1 — the
summary even records `total_models = 1` but `processed_models = 0`.  The
claim's "exactly N entries for every registry with N entries" is false. -/
theorem run_batch_skips_connectorless_counterexample :
    (listModelValues noConnectorReg).length = 1 ∧
    submittedIds noConnectorReg = [] ∧
    (run_batch noConnectorReg (fun _ => .error ("boom")) []).1.models = [] ∧
    (run_batch noConnectorReg (fun _ => .error ("boom")) []).1.summary =
      some ⟨1, 0, 0, 0, 0⟩ := by
  refine ⟨by rfl, by rfl, by rfl, by rfl⟩

/-- Claim C3, amended: for every registry and worker pool, the report's
`models` list contains exactly one entry per registry record *with an
attached connector* (records without one are skipped and contribute no
entry); as a multiset the list equals the canonical per-unit entries —
each unit's entry is `mkEntry` of that unit's own outcome alone, so a
failing unit never alters another unit's entry — independent of the order
in which units complete, which fixes the count in particular. -/
theorem run_batch_one_entry_per_connected_unit (reg : MultiModelRegistry)
    (outcome : String → Except String WorkflowResult)
    (completionOrder : List String)
    (hperm : completionOrder.Perm (submittedIds reg)) :
    (run_batch reg outcome completionOrder).1.models.Perm
      ((submittedIds reg).map (fun mid => mkEntry mid (outcome mid))) ∧
    (run_batch reg outcome completionOrder).1.models.length =
      (submittedIds reg).length ∧
    (∀ e ∈ (run_batch reg outcome completionOrder).1.models,
      ∃ mid ∈ submittedIds reg, e = mkEntry mid (outcome mid)) := by
  have hmodels : (run_batch reg outcome completionOrder).1.models =
      completionOrder.map (fun mid => mkEntry mid (outcome mid)) := by
    unfold run_batch
    by_cases he : (listModelValues reg).isEmpty
    · rw [if_pos he]
      have hsub : submittedIds reg = [] := by
        unfold submittedIds
        rw [List.isEmpty_iff] at he
        rw [he]
        rfl
      rw [hsub] at hperm
      rw [List.perm_nil] at hperm
      rw [hperm]
      rfl
    · rw [if_neg he]
  refine ⟨?_, ?_, ?_⟩
  · rw [hmodels]
    exact hperm.map (fun mid => mkEntry mid (outcome mid))
  · rw [hmodels, List.length_map, hperm.length_eq]
  · intro e he
    rw [hmodels] at he
    obtain ⟨mid, hmid, rfl⟩ := List.mem_map.mp he
    exact ⟨mid, hperm.subset hmid, rfl⟩

/-- A registry holding `m1` (connector attached, id 7) and `m2` (no
connector). -/
def mixedReg : MultiModelRegistry :=
  ⟨32, [(0, ⟨("m1"), ("src"), ("llm"), [], ("pending"), none, []⟩),
        (1, ⟨("m2"), ("src"), ("llm"), [], ("pending"), none, []⟩)],
   [(("m1"), 0), (("m2"), 1)], [(("m1"), 7)], 2⟩

/-- Witness for the amended C3: only the connected unit `m1` is submitted;
with its workflow raising, the report holds exactly its error entry. -/
theorem run_batch_one_entry_per_connected_unit_witness :
    (run_batch mixedReg (fun _ => .error ("boom")) [("m1")]).1.models.Perm
      ((submittedIds mixedReg).map
        (fun mid => mkEntry mid ((fun _ => .error ("boom")) mid))) ∧
    (run_batch mixedReg (fun _ => .error ("boom")) [("m1")]).1.models.length =
      (submittedIds mixedReg).length ∧
    (∀ e ∈ (run_batch mixedReg (fun _ => .error ("boom")) [("m1")]).1.models,
      ∃ mid ∈ submittedIds mixedReg,
        e = mkEntry mid ((fun _ => .error ("boom")) mid)) :=
  run_batch_one_entry_per_connected_unit mixedReg (fun _ => .error ("boom"))
    [("m1")] (by decide)

/-- Claim C10: for a registry with zero entries, `run_batch` returns the
bare `{"models": [], "summary": {}}` report — the summary carries none of
the count/average fields and the `registry` key is absent — no statuses
are touched and no report artifact is written to the batch results file. -/
theorem run_batch_empty_registry (reg : MultiModelRegistry)
    (outcome : String → Except String WorkflowResult)
    (completionOrder : List String) (h : reg.records = []) :
    run_batch reg outcome completionOrder =
      (⟨none, [], none⟩, false, reg) := by
  have hlv : listModelValues reg = [] := by
    unfold listModelValues
    rw [h]
    rfl
  unfold run_batch
  rw [hlv]
  rfl

/-- Witness for C10 at the empty registry. -/
theorem run_batch_empty_registry_witness :
    run_batch (emptyRegistry 32) (fun _ => .error ("x")) [] =
      (⟨none, [], none⟩, false, emptyRegistry 32) :=
  run_batch_empty_registry (emptyRegistry 32) (fun _ => .error ("x")) []
    (by rfl)

lemma complete_task_isOk (a n : Nat) (s : OrchState) (tid aid : String)
    {t : OrchTask} (h : lookupTask s.tasks tid = some t) :
    ∃ r, complete_task a n s tid aid = .ok r := by
  unfold complete_task
  rw [h]
  simp only []
  split
  · exact ⟨_, rfl⟩
  · exact ⟨_, rfl⟩

lemma fail_task_isOk (a n : Nat) (s : OrchState) (tid aid reason : String)
    {t : OrchTask} (h : lookupTask s.tasks tid = some t) :
    ∃ r, fail_task a n s tid aid reason = .ok r := by
  unfold fail_task
  rw [h]
  simp only []
  split
  · exact ⟨_, rfl⟩
  · exact ⟨_, rfl⟩

lemma lookupTask_dropKey_self (l : List (String × α)) (k : String) :
    lookupTask (dropKey l k) k = none := by
  induction l with
  | nil => rfl
  | cons p rest ih =>
    by_cases h : p.1 = k
    · simpa [dropKey, List.filter_cons, h] using ih
    · simpa [dropKey, List.filter_cons, h, lookupTask] using ih

lemma rejected_as_invalid_session (staleAfter now : Nat) (st' : AdapterState)
    (sid : String) (tok : Option String) (outcome : String)
    (rr : Option String) (h : lookupTask st'.sessions sid = none) :
    handleHeartbeatRequest staleAfter now st' (some sid) tok =
      .ok { st' with emitted := st'.emitted ++ [invalidSessionMsg (some sid)] } ∧
    handleReleaseRequest staleAfter now st' (some sid) tok outcome rr =
      .ok { st' with emitted := st'.emitted ++ [invalidSessionMsg (some sid)] } := by
  have hbind : (some sid).bind (lookupTask st'.sessions) = none := by
    simp [h]
  constructor
  · unfold handleHeartbeatRequest
    rw [hbind]
  · unfold handleReleaseRequest
    rw [hbind]

/-- Claim C9: a release request presenting a session id and lock token
matching a live adapter session removes the session *before* the
orchestrator's verdict is inspected: the request never raises (given the
session's task exists in the store), the session is gone from the table
afterwards — even when `complete_task`/`fail_task` returned `false` — and
any subsequent heartbeat or release request reusing the same session id
and lock token is rejected as an invalid session without touching the
orchestrator. -/
theorem release_removes_session_before_result_check
    (staleAfter now now2 : Nat) (st : AdapterState) (sid outcome : String)
    (release_reason : Option String) (sess : Session) (t : OrchTask)
    (hs : lookupTask st.sessions sid = some sess)
    (ht : lookupTask st.orch.tasks sess.task_id = some t) :
    (∃ st', handleReleaseRequest staleAfter now st (some sid)
      (some sess.lock_token) outcome release_reason = .ok st') ∧
    (∀ st', handleReleaseRequest staleAfter now st (some sid)
        (some sess.lock_token) outcome release_reason = .ok st' →
      lookupTask st'.sessions sid = none ∧
      handleHeartbeatRequest staleAfter now2 st' (some sid)
          (some sess.lock_token) =
        .ok { st' with
                emitted := st'.emitted ++ [invalidSessionMsg (some sid)] } ∧
      handleReleaseRequest staleAfter now2 st' (some sid)
          (some sess.lock_token) outcome release_reason =
        .ok { st' with
                emitted := st'.emitted ++ [invalidSessionMsg (some sid)] }) := by
  have hbind : (some sid).bind (lookupTask st.sessions) = some sess := by
    simp [hs]
  by_cases ho : outcome = ("failed")
  · obtain ⟨⟨b, orch'⟩, hcall⟩ :=
      fail_task_isOk staleAfter now st.orch sess.task_id sess.agent_id
        (release_reason.getD ("released as failed")) ht
    constructor
    · unfold handleReleaseRequest
      rw [hbind]
      simp only []
      rw [if_neg (by simp), if_pos ho, hcall]
      simp only [Except.map]
      cases b <;> exact ⟨_, rfl⟩
    · intro st' hst
      unfold handleReleaseRequest at hst
      rw [hbind] at hst
      simp only [] at hst
      rw [if_neg (by simp), if_pos ho, hcall] at hst
      simp only [Except.map] at hst
      have hsess : st'.sessions = dropKey st.sessions sid := by
        cases b with
        | false =>
          rw [if_neg (by simp)] at hst
          injection hst with h2
          rw [← h2]
        | true =>
          rw [if_pos rfl] at hst
          injection hst with h2
          rw [← h2]
      have hnone : lookupTask st'.sessions sid = none := by
        rw [hsess]
        exact lookupTask_dropKey_self st.sessions sid
      exact ⟨hnone,
        (rejected_as_invalid_session staleAfter now2 st' sid
          (some sess.lock_token) outcome release_reason hnone).1,
        (rejected_as_invalid_session staleAfter now2 st' sid
          (some sess.lock_token) outcome release_reason hnone).2⟩
  · obtain ⟨⟨b, orch'⟩, hcall⟩ :=
      complete_task_isOk staleAfter now st.orch sess.task_id sess.agent_id ht
    constructor
    · unfold handleReleaseRequest
      rw [hbind]
      simp only []
      rw [if_neg (by simp), if_neg ho, hcall]
      simp only [Except.map]
      cases b <;> exact ⟨_, rfl⟩
    · intro st' hst
      unfold handleReleaseRequest at hst
      rw [hbind] at hst
      simp only [] at hst
      rw [if_neg (by simp), if_neg ho, hcall] at hst
      simp only [Except.map] at hst
      have hsess : st'.sessions = dropKey st.sessions sid := by
        cases b with
        | false =>
          rw [if_neg (by simp)] at hst
          injection hst with h2
          rw [← h2]
        | true =>
          rw [if_pos rfl] at hst
          injection hst with h2
          rw [← h2]
      have hnone : lookupTask st'.sessions sid = none := by
        rw [hsess]
        exact lookupTask_dropKey_self st.sessions sid
      exact ⟨hnone,
        (rejected_as_invalid_session staleAfter now2 st' sid
          (some sess.lock_token) outcome release_reason hnone).1,
        (rejected_as_invalid_session staleAfter now2 st' sid
          (some sess.lock_token) outcome release_reason hnone).2⟩

/-- A live adapter session for `task_0`, owned by `agent1`. -/
def demoSession : Session := ⟨("task_0"), ("agent1"), ("tok")⟩

/-- Adapter state over `demoState` with one live session `s1`. -/
def demoAdapter : AdapterState :=
  ⟨[(("s1"), demoSession)], demoState, []⟩

/-- Witness for C9 at the concrete live session. -/
theorem release_removes_session_before_result_check_witness :
    (∃ st', handleReleaseRequest 90 10 demoAdapter (some ("s1"))
      (some ("tok")) ("completed") none = .ok st') ∧
    (∀ st', handleReleaseRequest 90 10 demoAdapter (some ("s1"))
        (some ("tok")) ("completed") none = .ok st' →
      lookupTask st'.sessions ("s1") = none ∧
      handleHeartbeatRequest 90 20 st' (some ("s1")) (some ("tok")) =
        .ok { st' with
                emitted := st'.emitted ++ [invalidSessionMsg (some ("s1"))] } ∧
      handleReleaseRequest 90 20 st' (some ("s1")) (some ("tok"))
          ("completed") none =
        .ok { st' with
                emitted := st'.emitted ++ [invalidSessionMsg (some ("s1"))] }) :=
  release_removes_session_before_result_check 90 10 20 demoAdapter ("s1")
    ("completed") none demoSession demoTask (by decide) (by decide)
